import Mathlib

/-!
# Verification of the sportunion-1190 season-statistics ETL pipeline

A shallow embedding of `src/build_tables.py`.  The pipeline turns a raw
season JSON document into three tables (per-player statistics, per-match
results, per-goal scoring events) and combines several seasons.

Modelling conventions, matching the pandas code:

* A raw record is an association list of `(column name, value)` pairs
  (`AssocRow`); a raw table is a list of such records.  A column is
  "present" in a table when some record carries that key
  (`pd.json_normalize` builds the column set from the union of keys).
* Scalar values are modelled by `JVal`.  Three distinct null-like values
  are kept apart because the Python code treats them differently:
  `JVal.null` (Python `None`, from JSON `null`), `JVal.nan` (float NaN,
  produced for a key missing from one record while the column exists),
  and `JVal.na` (`pandas.NA`, produced when a whole column is synthesized
  for an absent field).
* Numeric values are modelled as integers; `pd.to_numeric(..., errors
  ="coerce")` becomes `JVal.toNumCoerce : JVal → Option Int`, and the
  nullable Int64 dtype becomes `Option Int`.
* Code paths where the Python raises (KeyError from a groupby aggregation
  naming a missing column, AttributeError from `.astype`/`.fillna` on a
  scalar default, TypeError from `bool(pd.NA)`, json decoding errors)
  are modelled with `Except Unit`.
-/

/-- Characters stripped by Python's `int(...)` / `pd.to_numeric`. -/
def isSpaceChar (c : Char) : Bool := c == ' ' || c == '\t' || c == '\n' || c == '\r'

def digitVal (c : Char) : Option Nat :=
  if 48 ≤ c.toNat && c.toNat ≤ 57 then some (c.toNat - 48) else none

def digitsToNat : List Char → Option Nat
  | [] => none
  | [c] => digitVal c
  | c :: cs => do
    let d ← digitVal c
    let rest ← digitsToNat cs
    pure (d * 10 ^ cs.length + rest)

/-- Parse an optionally signed, whitespace-padded decimal integer, the
way Python's `int(str)` accepts it; `none` models a raised ValueError. -/
def parseIntChars (l : List Char) : Option Int :=
  let core := ((l.dropWhile isSpaceChar).reverse.dropWhile isSpaceChar).reverse
  match core with
  | '-' :: ds => (digitsToNat ds).map (fun n => -(n : Int))
  | '+' :: ds => (digitsToNat ds).map (fun n => (n : Int))
  | ds => (digitsToNat ds).map (fun n => (n : Int))

def pyParseInt (s : String) : Option Int := parseIntChars s.data

/-- Lexicographic order on strings by code point (the order pandas
sorts string group keys in). -/
def charListLe : List Char → List Char → Bool
  | [], _ => true
  | _ :: _, [] => false
  | a :: as, b :: bs =>
    if a.toNat < b.toNat then true
    else if a.toNat > b.toNat then false
    else charListLe as bs

def strLeB (a b : String) : Bool := charListLe a.data b.data

/-- A scalar cell value as it appears in a flattened pandas table. -/
inductive JVal where
  | null
  | nan
  | na
  | bool (b : Bool)
  | int (n : Int)
  | str (s : String)
deriving Repr, DecidableEq

namespace JVal

/-- `pd.notna`: false exactly on the three null-like values. -/
def pdNotna : JVal → Bool
  | null => false
  | nan => false
  | na => false
  | _ => true

/-- Is the value one of the three null-like values (`pd.isna`)? -/
def isNullLike (v : JVal) : Bool := !v.pdNotna

/-- Python truthiness, `bool(v)`.  `bool(pandas.NA)` raises
`TypeError: boolean value of NA is ambiguous`, hence the `Except`. -/
def pyTruthy : JVal → Except Unit Bool
  | null => .ok false
  | nan => .ok true
  | na => .error ()
  | bool b => .ok b
  | int n => .ok (n != 0)
  | str s => .ok (s != "")

/-- Python `int(v)`; `none` models a raised exception.  Numeric strings
are modelled as integer-valued. -/
def intCast : JVal → Option Int
  | int n => some n
  | bool b => some (if b then 1 else 0)
  | str s => pyParseInt s
  | _ => none

/-- `pd.to_numeric(v, errors="coerce")`: null-like and unparseable
values coerce to null. -/
def toNumCoerce : JVal → Option Int
  | int n => some n
  | bool b => some (if b then 1 else 0)
  | str s => pyParseInt s
  | _ => none

/-- How the value renders inside a Python f-string (`str(v)`). -/
def pyStr : JVal → String
  | null => "None"
  | nan => "nan"
  | na => "<NA>"
  | bool b => if b then "True" else "False"
  | int n => toString n
  | str s => s

/-- A total order on cell values used to model `sort_values` on a raw
column (rank by constructor, then by value).  Only the induced
permutation matters for the properties proved below. -/
def rank : JVal → Nat
  | null => 0
  | nan => 1
  | na => 2
  | bool _ => 3
  | int _ => 4
  | str _ => 5

def le (x y : JVal) : Bool :=
  if x.rank ≠ y.rank then x.rank ≤ y.rank
  else match x, y with
    | bool a, bool b => !a || b
    | int a, int b => a ≤ b
    | str a, str b => strLeB a b
    | _, _ => true

end JVal

/-- One flattened raw record: association list from column name to value. -/
abbrev AssocRow := List (String × JVal)

/-- Does the table have a column named `c`?  (`pd.json_normalize` takes
the union of the keys of all records.) -/
def hasCol (tbl : List AssocRow) (c : String) : Bool :=
  tbl.any (fun r => r.any (fun p => p.1 == c))

/-- The cell of record `r` in column `c`, in the context of table `tbl`:
a key missing from `r` while the column exists elsewhere reads as NaN;
a column absent from the whole table reads as `pandas.NA` (this is how
the builders synthesize absent columns). -/
def getCell (tbl : List AssocRow) (r : AssocRow) (c : String) : JVal :=
  if hasCol tbl c then
    match r.find? (fun p => p.1 == c) with
    | some p => p.2
    | none => .nan
  else .na

/-- The raw top-level document (`resp`), with the four lists the
builders read; an absent list defaults to empty (`resp.get(..., [])`). -/
structure Resp where
  players : List AssocRow
  matchStatistics : List AssocRow
  itemPlayerHistory : List AssocRow
  matchScoreStatistics : List AssocRow
deriving Repr, DecidableEq

/-! ## Generic list machinery: stable sort, left join, maximum -/

/-- Insert `a` into `l` before the first element `b` with `le a b`.
Used by `sortLe`; stable because an element being inserted originated
earlier in the input than everything already in `l`. -/
def insertLe (le : α → α → Bool) (a : α) : List α → List α
  | [] => [a]
  | b :: bs => if le a b then a :: b :: bs else b :: insertLe le a bs

/-- Stable insertion sort; models pandas' stable lexsort-based sorts. -/
def sortLe (le : α → α → Bool) : List α → List α
  | [] => []
  | a :: as => insertLe le a (sortLe le as)

/-- Pandas left merge: every left row is kept; a left row with no match
on the right yields one row with a null right side, a left row with k
matches yields k rows (one per matching right row, in right order). -/
def leftJoin (f : α → β → Bool) (left : List α) (right : List β)
    (comb : α → Option β → γ) : List γ :=
  match left with
  | [] => []
  | a :: as =>
    (match right.filter (f a) with
     | [] => [comb a none]
     | bs => bs.map (fun b => comb a (some b))) ++ leftJoin f as right comb

/-- Maximum of a list of integers, `none` on the empty list (pandas
`max` with `skipna` applied to the parseable values of a group). -/
def maxNum : List Int → Option Int
  | [] => none
  | x :: xs =>
    match maxNum xs with
    | none => some x
    | some m => some (max x m)

/-! ## Roster builder (`build_players_df`) -/

/-- One parsed roster row. -/
structure PlayerRow where
  player_id : Option Int
  name : String
  exclude_from_statistics : Bool
  created_ts : Option Int
  updated_ts : Option Int
deriving Repr, DecidableEq

/-- `fillna("").astype(str)` applied to one cell. -/
def strFillEmpty (v : JVal) : String :=
  if v.isNullLike then "" else v.pyStr

/-- `fillna(False).astype(bool)` applied to one cell. -/
def boolFillFalse (v : JVal) : Bool :=
  if v.isNullLike then false else
    match v.pyTruthy with
    | .ok b => b
    | .error _ => false

/-- The raw-to-renamed column mapping of `build_players_df`. -/
def playersMappingKeys : List String :=
  ["baseObjectId", "name", "excludeFromStatistics", "createdTimestamp", "updatedTimestamp"]

/-- `build_players_df`.  When none of the mapped raw columns is present
the builder yields an empty frame that nevertheless has all target
columns, so the later dtype passes are no-ops.  When some mapped column
is present but `baseObjectId`, `name` or `excludeFromStatistics` is
not, the corresponding dtype line calls `.astype`/`.fillna` on the
scalar default produced by `DataFrame.get`, which raises
(AttributeError) — modelled by `Except.error`. -/
def build_players_df (players : List AssocRow) : Except Unit (List PlayerRow) :=
  if (playersMappingKeys.filter (hasCol players)).isEmpty then .ok []
  else if !hasCol players "baseObjectId" then .error ()
  else if !hasCol players "name" then .error ()
  else if !hasCol players "excludeFromStatistics" then .error ()
  else .ok (players.map fun r =>
    { player_id := (getCell players r "baseObjectId").toNumCoerce
      name := strFillEmpty (getCell players r "name")
      exclude_from_statistics := boolFillFalse (getCell players r "excludeFromStatistics")
      created_ts :=
        if hasCol players "createdTimestamp" then
          (getCell players r "createdTimestamp").toNumCoerce
        else none
      updated_ts :=
        if hasCol players "updatedTimestamp" then
          (getCell players r "updatedTimestamp").toNumCoerce
        else none })

/-! ## Per-player aggregates (`build_stats_from_matchstatistics`,
`build_matches_played_from_itemplayerhistory`) -/

/-- The accepted aliases for the player identifier column. -/
def playerColAliases : List String := ["playerId", "player_id", "playerID"]

/-- `next((c for c in (...) if c in df.columns), None)`. -/
def playerColOf (tbl : List AssocRow) : Option String :=
  playerColAliases.find? (hasCol tbl)

/-- `pick_flag`: resolve the first present alias and read it null-safely
(`to_numeric(...).fillna(0)`); all-absent aliases give constant 0. -/
def pick_flag (tbl : List AssocRow) (names : List String) (r : AssocRow) : Int :=
  match names.find? (hasCol tbl) with
  | some c => ((getCell tbl r c).toNumCoerce).getD 0
  | none => 0

def goalsAliases : List String := ["score", "isGoal", "Score"]
def assistsAliases : List String := ["assist", "isAssist", "Assist"]
def ownGoalsAliases : List String := ["ownGoal", "own_goal", "OwnGoal"]

/-- The parsed player identifier of a raw statistics record, given the
resolved player column. -/
def pidCell (tbl : List AssocRow) (pc : String) (r : AssocRow) : Option Int :=
  (getCell tbl r pc).toNumCoerce

/-- One row of the per-player goal/assist/own-goal aggregate. -/
structure StatAgg where
  player_id : Int
  goals : Int
  assists : Int
  own_goals : Int
deriving Repr, DecidableEq

/-- The sorted distinct non-null group keys of a pandas `groupby`
(`sort=True`, null keys dropped). -/
def groupKeys (pids : List (Option Int)) : List Int :=
  sortLe (fun a b => a ≤ b) (pids.filterMap id).dedup

/-- `build_stats_from_matchstatistics`.  The `groupby(...).agg` names
the literal column `"score"` in all three named aggregations, so when
that column is absent (even though `pick_flag` resolved an alias) the
aggregation raises `KeyError` — modelled by `Except.error`. -/
def build_stats_from_matchstatistics (ms : List AssocRow) : Except Unit (List StatAgg) :=
  if ms.isEmpty then .ok []
  else match playerColOf ms with
  | none => .ok []
  | some pc =>
    if !hasCol ms "score" then .error ()
    else .ok ((groupKeys (ms.map (pidCell ms pc))).map fun k =>
      let grp := ms.filter (fun r => pidCell ms pc r == some k)
      { player_id := k
        goals := (grp.map (pick_flag ms goalsAliases)).sum
        assists := (grp.map (pick_flag ms assistsAliases)).sum
        own_goals := (grp.map (pick_flag ms ownGoalsAliases)).sum })

/-- One row of the distinct-matches-played aggregate. -/
structure MPAgg where
  player_id : Int
  matches_played : Int
deriving Repr, DecidableEq

/-- `.astype(str)` applied to one cell (`str(v)`; NaN renders "nan"). -/
def astypeStr (v : JVal) : String := v.pyStr

/-- `choose_match_id`: two-tier match identifier of one participation
record ("s<id>" for a nonzero numeric `soccerMatchId`, else
"ie<itemEventId as string>"). -/
def choose_match_id (tbl : List AssocRow) (r : AssocRow) : String :=
  let sm :=
    if hasCol tbl "soccerMatchId" then (getCell tbl r "soccerMatchId").toNumCoerce
    else none
  match sm with
  | some n => if n != 0 then "s" ++ toString n else "ie" ++ astypeStr (getCell tbl r "itemEventId")
  | none => "ie" ++ astypeStr (getCell tbl r "itemEventId")

/-- `build_matches_played_from_itemplayerhistory`.  When the table has a
player column but no `itemEventId` column, `iph.get("itemEventId", "")`
returns the scalar default `""` and the following `.astype(str)` raises
(AttributeError) — modelled by `Except.error`. -/
def build_matches_played_from_itemplayerhistory (iph : List AssocRow) :
    Except Unit (List MPAgg) :=
  if iph.isEmpty then .ok []
  else match playerColOf iph with
  | none => .ok []
  | some pc =>
    if !hasCol iph "itemEventId" then .error ()
    else .ok ((groupKeys (iph.map (pidCell iph pc))).map fun k =>
      let grp := iph.filter (fun r => pidCell iph pc r == some k)
      { player_id := k
        matches_played := ((grp.map (choose_match_id iph)).dedup).length })

/-! ## Combined per-player table (`build_player_stats`) -/

/-- One row of the final per-player statistics table. -/
structure PlayerStatsRow where
  player_id : Option Int
  name : String
  exclude_from_statistics : Bool
  goals : Int
  assists : Int
  own_goals : Int
  matches_played : Int
deriving Repr, DecidableEq

/-- One roster row with its (possibly unmatched) goal aggregate: the
merge result after `fillna(0).astype(int)`. -/
def statRowOf (p : PlayerRow) (a? : Option StatAgg) : PlayerStatsRow :=
  { player_id := p.player_id, name := p.name
    exclude_from_statistics := p.exclude_from_statistics
    goals := ((a?.map (·.goals)).getD 0)
    assists := ((a?.map (·.assists)).getD 0)
    own_goals := ((a?.map (·.own_goals)).getD 0)
    matches_played := 0 }

/-- One joined row with its (possibly unmatched) matches-played
aggregate, after `fillna(0).astype(int)`. -/
def withMP (r : PlayerStatsRow) (m? : Option MPAgg) : PlayerStatsRow :=
  { r with matches_played := ((m?.map (·.matches_played)).getD 0) }

/-- Attach the goal/assist/own-goal aggregate to the roster.  The empty
aggregate takes the explicit zero-column branch of the source; otherwise
a left merge on `player_id` followed by `fillna(0).astype(int)`. -/
def attachStats (players : List PlayerRow) (agg : List StatAgg) : List PlayerStatsRow :=
  if agg.isEmpty then players.map (fun p => statRowOf p none)
  else leftJoin (fun p a => p.player_id == some a.player_id) players agg statRowOf

/-- Attach the matches-played aggregate (left merge on `player_id`,
then `fillna(0).astype(int)`; the empty aggregate takes the explicit
zero-column branch, which leaves the zero placeholder in place). -/
def attachMP (rows : List PlayerStatsRow) (mp : List MPAgg) : List PlayerStatsRow :=
  if mp.isEmpty then rows
  else leftJoin (fun r m => r.player_id == some m.player_id) rows mp withMP

/-- The ordering used by `sort_values(by=["goals", "assists"],
ascending=[False, False])`: descending goals, then descending assists.
Multi-column `sort_values` is a stable lexsort in pandas. -/
def statLe (r₁ r₂ : PlayerStatsRow) : Bool :=
  r₁.goals > r₂.goals || (r₁.goals == r₂.goals && r₁.assists ≥ r₂.assists)

/-- `build_player_stats` up to (but excluding) the final sort. -/
def build_player_stats_presort (resp : Resp) : Except Unit (List PlayerStatsRow) := do
  let players ← build_players_df resp.players
  let agg ← build_stats_from_matchstatistics resp.matchStatistics
  let mp ← build_matches_played_from_itemplayerhistory resp.itemPlayerHistory
  pure (attachMP (attachStats players agg) mp)

/-- `build_player_stats`: the joined roster table, sorted descending by
goals then assists. -/
def build_player_stats (resp : Resp) : Except Unit (List PlayerStatsRow) :=
  (build_player_stats_presort resp).map (sortLe statLe)

/-! ## Match table (`build_matches_df`) -/

/-- The cells of one raw `matchScoreStatistics` record that the match
builder reads, after the columns in `needed_cols` have been ensured
(an absent column reads as `pandas.NA` via `getCell`). -/
structure MssRec where
  soccerMatchId : JVal
  itemEventId : JVal
  itemEventDate : JVal
  teamHome : JVal
  teamAway : JVal
  teamHomeId : JVal
  teamAwayId : JVal
  scoreTeamHome : JVal
  scoreTeamAway : JVal
deriving Repr, DecidableEq

def extractMss (tbl : List AssocRow) (r : AssocRow) : MssRec :=
  { soccerMatchId := getCell tbl r "soccerMatchId"
    itemEventId := getCell tbl r "itemEventId"
    itemEventDate := getCell tbl r "itemEventDate"
    teamHome := getCell tbl r "teamHome"
    teamAway := getCell tbl r "teamAway"
    teamHomeId := getCell tbl r "teamHomeId"
    teamAwayId := getCell tbl r "teamAwayId"
    scoreTeamHome := getCell tbl r "scoreTeamHome"
    scoreTeamAway := getCell tbl r "scoreTeamAway" }

/-- The primary-identifier tier of the key policy: the value of
`int(soccerMatchId)` when it is non-null, castable and nonzero
(`int()` raising is treated as absent via the `try`/`except`). -/
def smPrimary (v : JVal) : Option Int :=
  if v.pdNotna then
    match v.intCast with
    | some n => if n != 0 then some n else none
    | none => none
  else none

/-- `x or ""` on a cell: falsy values (None, 0, "", False) are replaced
by the empty string; `bool(pandas.NA)` raises. -/
def orEmpty (v : JVal) : Except Unit JVal := do
  let b ← v.pyTruthy
  pure (if b then v else .str "")

/-- `make_match_key` as defined inside `build_matches_df`: primary tier
"s<id>"; composite tier concatenates the f-string renderings of the
falsy-coerced (event id, home team id, away team id, date). -/
def make_match_key (r : MssRec) : Except Unit String :=
  match smPrimary r.soccerMatchId with
  | some n => .ok ("s" ++ toString n)
  | none => do
    let ie ← orEmpty r.itemEventId
    let th ← orEmpty r.teamHomeId
    let ta ← orEmpty r.teamAwayId
    let d ← orEmpty r.itemEventDate
    pure ("ie" ++ ie.pyStr ++ "_h" ++ th.pyStr ++ "_a" ++ ta.pyStr ++ "_d" ++ d.pyStr)

/-- The key of one raw record in the context of its table. -/
def mssKey (tbl : List AssocRow) (r : AssocRow) : Except Unit String :=
  make_match_key (extractMss tbl r)

/-- The key of one raw record as the successful `apply` leaves it (the
builder checks separately that no record raised). -/
def mssKeyD (tbl : List AssocRow) (r : AssocRow) : String :=
  ((mssKey tbl r).toOption).getD ""

/-- One row of the derived one-row-per-match table. -/
structure MatchRow where
  match_key : String
  soccer_match_id : Option Int
  item_event_id : JVal
  item_event_date : JVal
  team_home : JVal
  team_away : JVal
  team_home_id : JVal
  team_away_id : JVal
  home_score : Option Int
  away_score : Option Int
deriving Repr, DecidableEq

/-- Pandas `groupby(...).first()`: the first non-null value of the
group, or NaN when every value is null-like. -/
def firstNonNull (l : List JVal) : JVal :=
  (l.find? (fun v => v.pdNotna)).getD .nan

/-- `build_matches_df`: attach a key to every record (the `apply`
raises as soon as one record's key computation raises), stable-sort by
`itemEventDate`, then group by key (`groupby` sorts the distinct keys)
taking first descriptive fields and the null-safe maximum of each
side's parsed score. -/
def build_matches_df (tbl : List AssocRow) : Except Unit (List MatchRow) :=
  if tbl.isEmpty then .ok []
  else if !(tbl.all fun r => (mssKey tbl r).isOk) then .error ()
  else
    let keyed := tbl.map fun r => (extractMss tbl r, mssKeyD tbl r)
    let sorted := sortLe (fun x y => JVal.le x.1.itemEventDate y.1.itemEventDate) keyed
    let keys := sortLe strLeB ((sorted.map (·.2)).dedup)
    .ok (keys.map fun k =>
      let grp := sorted.filter (fun x => x.2 == k)
      { match_key := k
        soccer_match_id := (firstNonNull (grp.map (·.1.soccerMatchId))).toNumCoerce
        item_event_id := firstNonNull (grp.map (·.1.itemEventId))
        item_event_date := firstNonNull (grp.map (·.1.itemEventDate))
        team_home := firstNonNull (grp.map (·.1.teamHome))
        team_away := firstNonNull (grp.map (·.1.teamAway))
        team_home_id := firstNonNull (grp.map (·.1.teamHomeId))
        team_away_id := firstNonNull (grp.map (·.1.teamAwayId))
        home_score := maxNum (grp.filterMap (fun x => x.1.scoreTeamHome.toNumCoerce))
        away_score := maxNum (grp.filterMap (fun x => x.1.scoreTeamAway.toNumCoerce)) })

/-! ## Scoring events (`build_scoring_events_df`) -/

/-- The columns that `build_scoring_events_df` reads directly from the
raw frame.  The first six appear verbatim in the subset selection (a
missing one raises `KeyError`); the last five feed
`pd.to_numeric(mss.get(...)).astype("Int64")`, whose scalar-default
path also raises when the column is absent. -/
def requiredEvCols : List String :=
  ["itemEventDate", "scoreTime", "teamHome", "teamAway", "scoreTeamHome", "scoreTeamAway",
   "soccerMatchId", "itemEventId", "scoreTeamId", "teamHomeId", "teamAwayId"]

/-- One pre-merge event record: the renamed subset of a raw
`matchScoreStatistics` record with identifier columns coerced to
nullable integers, plus the attached match key. -/
structure Ev0 where
  item_event_date : JVal
  score_time : JVal
  soccer_match_id : Option Int
  item_event_id : Option Int
  team_home : JVal
  team_away : JVal
  team_home_id : Option Int
  team_away_id : Option Int
  score_team_id : Option Int
  score_team_home : JVal
  score_team_away : JVal
  scoreById : Option Int
  assistById : Option Int
  ownGoalById : Option Int
  match_key : String
deriving Repr, DecidableEq

/-- How an Int64 cell renders inside an f-string. -/
def int64Str : Option Int → String
  | some n => toString n
  | none => "<NA>"

/-- The `make_match_key` defined inside `build_scoring_events_df`: it
reads the *coerced* identifier columns, without the `or ""` falsy
coercion of the match-table version, so 0 renders as "0" and a null
renders as "<NA>". -/
def make_match_key_events (sm ie th ta : Option Int) (date : JVal) : String :=
  match sm with
  | some n => if n != 0 then "s" ++ toString n else
      "ie" ++ int64Str ie ++ "_h" ++ int64Str th ++ "_a" ++ int64Str ta ++ "_d" ++ date.pyStr
  | none =>
      "ie" ++ int64Str ie ++ "_h" ++ int64Str th ++ "_a" ++ int64Str ta ++ "_d" ++ date.pyStr

def extractEv0 (tbl : List AssocRow) (r : AssocRow) : Ev0 :=
  let sm := (getCell tbl r "soccerMatchId").toNumCoerce
  let ie := (getCell tbl r "itemEventId").toNumCoerce
  let th := (getCell tbl r "teamHomeId").toNumCoerce
  let ta := (getCell tbl r "teamAwayId").toNumCoerce
  let date := getCell tbl r "itemEventDate"
  { item_event_date := date
    score_time := getCell tbl r "scoreTime"
    soccer_match_id := sm
    item_event_id := ie
    team_home := getCell tbl r "teamHome"
    team_away := getCell tbl r "teamAway"
    team_home_id := th
    team_away_id := ta
    score_team_id := (getCell tbl r "scoreTeamId").toNumCoerce
    score_team_home := getCell tbl r "scoreTeamHome"
    score_team_away := getCell tbl r "scoreTeamAway"
    scoreById := (getCell tbl r "scoreById").toNumCoerce
    assistById := (getCell tbl r "assistById").toNumCoerce
    ownGoalById := (getCell tbl r "ownGoalById").toNumCoerce
    match_key := make_match_key_events sm ie th ta date }

/-- One row of the final scoring-events table. -/
structure EventRow where
  match_key : String
  soccer_match_id : Option Int
  item_event_id : Option Int
  item_event_date : JVal
  score_time : JVal
  team_home : JVal
  team_away : JVal
  team_home_id : Option Int
  team_away_id : Option Int
  score_team_id : Option Int
  score_team_home : JVal
  score_team_away : JVal
  scorer_id : Option Int
  scorer_name : Option String
  assist_id : Option Int
  assist_name : Option String
  own_goal_id : Option Int
  own_goal_name : Option String
deriving Repr, DecidableEq

/-- One stage of a pandas left merge against the roster keyed on a
nullable identifier: the matching roster rows in order, or a single
null when nothing matches.  Pandas merges do match null keys with null
keys. -/
def rosterMatches (roster : List PlayerRow) (key : Option Int) : List (Option PlayerRow) :=
  match roster.filter (fun p => p.player_id == key) with
  | [] => [none]
  | ps => ps.map some

def mkEventRow (e : Ev0) (s a o : Option PlayerRow) : EventRow :=
  { match_key := e.match_key
    soccer_match_id := e.soccer_match_id
    item_event_id := e.item_event_id
    item_event_date := e.item_event_date
    score_time := e.score_time
    team_home := e.team_home
    team_away := e.team_away
    team_home_id := e.team_home_id
    team_away_id := e.team_away_id
    score_team_id := e.score_team_id
    score_team_home := e.score_team_home
    score_team_away := e.score_team_away
    scorer_id := s.bind (·.player_id)
    scorer_name := s.map (·.name)
    assist_id := a.bind (·.player_id)
    assist_name := a.map (·.name)
    own_goal_id := o.bind (·.player_id)
    own_goal_name := o.map (·.name) }

/-- The retained-rows mask: a scorer or an own-goal player resolved. -/
def eventMask (e : EventRow) : Bool := e.scorer_id.isSome || e.own_goal_id.isSome

/-- The rows that one raw record contributes to the scoring-events
table: the three successive roster merges, then the goal mask. -/
def rowEvents (roster : List PlayerRow) (e : Ev0) : List EventRow :=
  (((rosterMatches roster e.scoreById).flatMap fun s =>
      (rosterMatches roster e.assistById).flatMap fun a =>
        (rosterMatches roster e.ownGoalById).map fun o =>
          mkEventRow e s a o)).filter eventMask

/-- `build_scoring_events_df`: empty input gives the empty declared
frame; a required raw column missing from a nonempty frame raises;
otherwise every record is coerced, keyed, merged three times against
the roster (scorer / assist / own goal) and filtered to rows where a
scorer or own-goal player resolved. -/
def build_scoring_events_df (resp : Resp) : Except Unit (List EventRow) :=
  let mss := resp.matchScoreStatistics
  if mss.isEmpty then .ok []
  else if !(requiredEvCols.all (hasCol mss)) then .error ()
  else do
    let roster ← build_players_df resp.players
    pure (((mss.map (extractEv0 mss)).flatMap fun e =>
      (rosterMatches roster e.scoreById).flatMap fun s =>
        (rosterMatches roster e.assistById).flatMap fun a =>
          (rosterMatches roster e.ownGoalById).map fun o =>
            mkEventRow e s a o).filter eventMask)

/-! ## SourceLoader (`_load_local_json`, `download_season_json`) -/

/-- The state of one season's cache file. -/
inductive FileState where
  | absent
  | malformed
  | valid (d : Resp)
deriving Repr, DecidableEq

/-- The parsed contents of a readable cache (`none` when absent). -/
def cacheContents : FileState → Option Resp
  | .absent => none
  | .malformed => none
  | .valid d => some d

/-- `_load_local_json`: a missing file returns None; an existing file
is `json.load`ed, which raises on malformed JSON. -/
def load_local_json : FileState → Except Unit (Option Resp)
  | .absent => .ok none
  | .malformed => .error ()
  | .valid d => .ok (some d)

/-- The outcome of the single `requests.get` attempt. -/
inductive FetchResult where
  | success (d : Resp)
  | connectionError
  | timeout
  | httpError
  | invalidJson
deriving Repr, DecidableEq

def FetchResult.isFailure : FetchResult → Bool
  | .success _ => false
  | _ => true

/-- `download_season_json`: with downloads disallowed, only the cache is
read; with downloads allowed, a successful fetch overwrites the cache
and returns the new document, and any fetch failure falls back to one
cache read.  The pair's second component is the cache state after the
call. -/
def download_season_json (allow_download : Bool) (fetch : FetchResult)
    (cache : FileState) : Except Unit (Option Resp) × FileState :=
  if !allow_download then (load_local_json cache, cache)
  else
    match fetch with
    | .success d => (.ok (some d), .valid d)
    | _ => (load_local_json cache, cache)

/-! ## SeasonCombiner (`main`) -/

/-- The three season-tagged combined tables. -/
structure Tables where
  player_stats_all : List (PlayerStatsRow × String)
  matches_all : List (MatchRow × String)
  events_all : List (EventRow × String)
deriving Repr, DecidableEq

def emptyTables : Tables := ⟨[], [], []⟩

def appendTables (t u : Tables) : Tables :=
  ⟨t.player_stats_all ++ u.player_stats_all, t.matches_all ++ u.matches_all,
    t.events_all ++ u.events_all⟩

/-- Build and tag one season's three tables from a loaded document
(`data.get("response", data)` is modelled by taking the document to be
the response payload itself). -/
def buildSeasonTables (resp : Resp) (tag : String) : Except Unit Tables := do
  let ps ← build_player_stats resp
  let ms ← build_matches_df resp.matchScoreStatistics
  let evs ← build_scoring_events_df resp
  pure ⟨ps.map (fun r => (r, tag)), ms.map (fun r => (r, tag)), evs.map (fun r => (r, tag))⟩

/-- One iteration of the season loop: load (propagating a raised
loader exception), skip the season when the loader returned None,
otherwise build its tables. -/
def runSeason (allow_download : Bool) (fetch : FetchResult) (cache : FileState)
    (tag : String) : Except Unit Tables := do
  match ← (download_season_json allow_download fetch cache).1 with
  | none => pure emptyTables
  | some resp => buildSeasonTables resp tag

/-- The environment `main` runs in: season 25/26 may fetch (its cache
and one fetch outcome), season 24/25 is always cache-only. -/
structure Env where
  fetch2526 : FetchResult
  cache2526 : FileState
  cache2425 : FileState
deriving Repr, DecidableEq

/-- `main(download_2526)`: seasons are processed in the insertion order
of `SEASONS` (25/26 then 24/25); 24/25 never downloads; the per-season
tables are concatenated. -/
def mainModel (download_2526 : Bool) (env : Env) : Except Unit Tables := do
  let t1 ← runSeason download_2526 env.fetch2526 env.cache2526 "25/26"
  let t2 ← runSeason false env.fetch2526 env.cache2425 "24/25"
  pure (appendTables t1 t2)

/-! ## Generic lemmas about the list machinery -/

theorem insertLe_perm (le : α → α → Bool) (a : α) (l : List α) :
    (insertLe le a l).Perm (a :: l) := by
  induction l with
  | nil => simp [insertLe]
  | cons b bs ih =>
    simp only [insertLe]
    by_cases h : le a b = true
    · simp [h]
    · simp only [h, if_false]
      exact (ih.cons b).trans (List.Perm.swap a b bs)

theorem sortLe_perm (le : α → α → Bool) (l : List α) : (sortLe le l).Perm l := by
  induction l with
  | nil => simp [sortLe]
  | cons a as ih => exact (insertLe_perm le a (sortLe le as)).trans (ih.cons a)

theorem sortLe_length (le : α → α → Bool) (l : List α) :
    (sortLe le l).length = l.length :=
  (sortLe_perm le l).length_eq

theorem mem_insertLe {le : α → α → Bool} {a x : α} {l : List α} :
    x ∈ insertLe le a l ↔ x = a ∨ x ∈ l := by
  rw [(insertLe_perm le a l).mem_iff, List.mem_cons]

theorem mem_sortLe {le : α → α → Bool} {x : α} {l : List α} :
    x ∈ sortLe le l ↔ x ∈ l := (sortLe_perm le l).mem_iff

theorem pairwise_insertLe {le : α → α → Bool}
    (htot : ∀ a b, le a b = true ∨ le b a = true)
    (htrans : ∀ a b c, le a b = true → le b c = true → le a c = true)
    {a : α} {l : List α} (h : l.Pairwise (fun x y => le x y = true)) :
    (insertLe le a l).Pairwise (fun x y => le x y = true) := by
  induction l with
  | nil => simp [insertLe]
  | cons b bs ih =>
    simp only [insertLe]
    rcases List.pairwise_cons.mp h with ⟨hb, hbs⟩
    by_cases hab : le a b = true
    · simp only [hab, if_true]
      refine List.pairwise_cons.mpr ⟨?_, h⟩
      intro x hx
      rcases List.mem_cons.mp hx with rfl | hx
      · exact hab
      · exact htrans a b x hab (hb x hx)
    · simp only [hab, if_false]
      refine List.pairwise_cons.mpr ⟨?_, ih hbs⟩
      intro x hx
      rcases mem_insertLe.mp hx with rfl | hx
      · rcases htot x b with h' | h'
        · exact absurd h' hab
        · exact h'
      · exact hb x hx

theorem pairwise_sortLe (le : α → α → Bool)
    (htot : ∀ a b, le a b = true ∨ le b a = true)
    (htrans : ∀ a b c, le a b = true → le b c = true → le a c = true)
    (l : List α) : (sortLe le l).Pairwise (fun x y => le x y = true) := by
  induction l with
  | nil => simp [sortLe]
  | cons a as ih => exact pairwise_insertLe htot htrans ih

/-- Stability of the sort on one equivalence class: a predicate whose
holders are pairwise `le`-equivalent filters to the same subsequence
before and after inserting. -/
theorem filter_insertLe {le : α → α → Bool} {p : α → Bool}
    (hp : ∀ x y, p x = true → p y = true → le x y = true)
    (a : α) (l : List α) :
    (insertLe le a l).filter p = (a :: l).filter p := by
  induction l with
  | nil => simp [insertLe]
  | cons b bs ih =>
    simp only [insertLe]
    by_cases hab : le a b = true
    · simp [hab]
    · simp only [hab, if_false]
      by_cases hpa : p a = true
      · have hpb : p b = false := by
          by_contra hpb
          exact hab (hp a b hpa (by simpa using hpb))
        simp [List.filter_cons, hpa, hpb, ih]
      · have hpa' : p a = false := by simpa using hpa
        simp [List.filter_cons, hpa', ih]

theorem filter_sortLe {le : α → α → Bool} {p : α → Bool}
    (hp : ∀ x y, p x = true → p y = true → le x y = true)
    (l : List α) : (sortLe le l).filter p = l.filter p := by
  induction l with
  | nil => simp [sortLe]
  | cons a as ih =>
    rw [show sortLe le (a :: as) = insertLe le a (sortLe le as) from rfl,
      filter_insertLe hp a (sortLe le as)]
    simp [List.filter_cons, ih]

theorem nodup_sortLe {le : α → α → Bool} {l : List α} (h : l.Nodup) :
    (sortLe le l).Nodup := ((sortLe_perm le l).nodup_iff).mpr h

theorem maxNum_perm {l₁ l₂ : List Int} (h : l₁.Perm l₂) : maxNum l₁ = maxNum l₂ := by
  induction h with
  | nil => rfl
  | cons x _ ih => simp [maxNum, ih]
  | swap x y l =>
    simp only [maxNum]
    cases maxNum l with
    | none => simp [max_comm]
    | some m => simp [max_left_comm]
  | trans _ _ ih₁ ih₂ => exact ih₁.trans ih₂

theorem find?_eq_head_of_filter {p : α → Bool} {l : List α} {b : α} {bs : List α}
    (h : l.filter p = b :: bs) : l.find? p = some b := by
  induction l with
  | nil => simp at h
  | cons c cs ih =>
    by_cases hc : p c = true
    · rw [List.filter_cons_of_pos hc] at h
      cases h
      exact List.find?_cons_of_pos _ hc
    · rw [List.filter_cons_of_neg (by simpa using hc)] at h
      rw [List.find?_cons_of_neg _ (by simpa using hc)]
      exact ih h

/-- A left join whose right side never matches a left row more than
once is a per-row lookup. -/
theorem leftJoin_eq_map {f : α → β → Bool} {left : List α} {right : List β}
    {comb : α → Option β → γ}
    (h : ∀ a ∈ left, (right.filter (f a)).length ≤ 1) :
    leftJoin f left right comb = left.map (fun a => comb a (right.find? (f a))) := by
  induction left with
  | nil => rfl
  | cons a as ih =>
    have ha := h a (by simp)
    have has : ∀ x ∈ as, (right.filter (f x)).length ≤ 1 :=
      fun x hx => h x (List.mem_cons_of_mem a hx)
    simp only [leftJoin]
    rw [ih has, List.map_cons]
    rcases hf : right.filter (f a) with _ | ⟨b, bs⟩
    · have : right.find? (f a) = none := by
        rw [List.find?_eq_none]
        intro x hx hfx
        have hmem : x ∈ right.filter (f a) := List.mem_filter.mpr ⟨hx, hfx⟩
        simp [hf] at hmem
      simp [this]
    · have hbs : bs = [] := by
        rw [hf, List.length_cons] at ha
        exact List.length_eq_zero.mp (by omega)
      subst hbs
      rw [find?_eq_head_of_filter hf]
      simp

/-- Every left row of a unique-keyed left join contributes exactly one
output row, so the join preserves length. -/
theorem leftJoin_length {f : α → β → Bool} {left : List α} {right : List β}
    {comb : α → Option β → γ}
    (h : ∀ a ∈ left, (right.filter (f a)).length ≤ 1) :
    (leftJoin f left right comb).length = left.length := by
  rw [leftJoin_eq_map h, List.length_map]

/-! ## Further generic helpers for the claim proofs -/

instance {ε α : Type} [DecidableEq ε] [DecidableEq α] : DecidableEq (Except ε α)
  | .ok a, .ok b => if h : a = b then .isTrue (by rw [h]) else .isFalse (by simp [h])
  | .error a, .error b => if h : a = b then .isTrue (by rw [h]) else .isFalse (by simp [h])
  | .ok _, .error _ => .isFalse (by simp)
  | .error _, .ok _ => .isFalse (by simp)

theorem except_isOk_eq_ok {o : Except Unit String} (h : o.isOk = true) :
    o = .ok (o.toOption.getD "") := by
  cases o with
  | ok v => rfl
  | error e => simp [Except.isOk, Except.toBool] at h

/-! ## Concrete documents and records used as test inputs -/

/-- A composite-tier record whose event id is the integer 0. -/
def recCompositeIntZero : MssRec :=
  { soccerMatchId := .int 0, itemEventId := .int 0, itemEventDate := .str "",
    teamHome := .null, teamAway := .null, teamHomeId := .str "", teamAwayId := .str "",
    scoreTeamHome := .null, scoreTeamAway := .null }

/-- The same record with the event id null instead of 0. -/
def recCompositeNull : MssRec := { recCompositeIntZero with itemEventId := .null }

/-- The same record with an unrelated field changed. -/
def recCompositeOther : MssRec := { recCompositeIntZero with scoreTeamHome := .int 9 }

/-- Two primary-tier records agreeing only on the match identifier. -/
def recPrimaryA : MssRec :=
  { soccerMatchId := .int 5, itemEventId := .str "e1", itemEventDate := .str "2024-01-01",
    teamHome := .str "H", teamAway := .str "A", teamHomeId := .int 10, teamAwayId := .int 20,
    scoreTeamHome := .int 1, scoreTeamAway := .int 0 }

def recPrimaryB : MssRec :=
  { soccerMatchId := .str "5", itemEventId := .str "e2", itemEventDate := .str "2024-02-02",
    teamHome := .str "X", teamAway := .str "Y", teamHomeId := .int 11, teamAwayId := .int 21,
    scoreTeamHome := .int 3, scoreTeamAway := .int 3 }

/-- A `matchStatistics` table whose only goal information is carried by
an alias (`assist` present, none of `score`/`isGoal`/`Score`). -/
def msAliasOnlyAssist : List AssocRow := [[("playerId", JVal.int 1), ("assist", JVal.int 1)]]

/-- One raw score record with identifier 0 and integer event id, on a
roster of one player; exercises both key implementations. -/
def mss7 : List AssocRow :=
  [[("soccerMatchId", JVal.int 0), ("itemEventId", JVal.int 0),
    ("itemEventDate", JVal.str "2024-01-01"), ("scoreTime", JVal.str "10"),
    ("teamHome", JVal.str "H"), ("teamAway", JVal.str "A"),
    ("teamHomeId", JVal.int 10), ("teamAwayId", JVal.int 20),
    ("scoreTeamHome", JVal.int 1), ("scoreTeamAway", JVal.int 0),
    ("scoreById", JVal.int 1), ("scoreTeamId", JVal.int 10)]]

def resp7 : Resp :=
  { players := [[("baseObjectId", JVal.int 1), ("name", JVal.str "A"),
      ("excludeFromStatistics", JVal.bool false)]],
    matchStatistics := [], itemPlayerHistory := [], matchScoreStatistics := mss7 }

/-! ## C2 — the match-key collapsing rule -/

/-- C2 counterexample: with the primary identifier 0 on both sides,
changing exactly one of the four composite fields (the event id, from
the integer 0 to null) does NOT change the key: both falsy values are
coerced to the empty string, so the two distinct quadruples collide on
"ie_h_a_d".  This refutes both the only-if direction of the claim and
its "changing any one of those four fields yields a different key"
part. -/
theorem C2_counterexample :
    smPrimary recCompositeIntZero.soccerMatchId = none ∧
    smPrimary recCompositeNull.soccerMatchId = none ∧
    recCompositeIntZero.itemEventId ≠ recCompositeNull.itemEventId ∧
    recCompositeIntZero.teamHomeId = recCompositeNull.teamHomeId ∧
    recCompositeIntZero.teamAwayId = recCompositeNull.teamAwayId ∧
    recCompositeIntZero.itemEventDate = recCompositeNull.itemEventDate ∧
    make_match_key recCompositeIntZero = Except.ok "ie_h_a_d" ∧
    make_match_key recCompositeNull = Except.ok "ie_h_a_d" := by
  decide

/-- C2 (amended): two records with the same nonzero parsed
`soccerMatchId` always get the same key, whatever every other field
holds; and when the identifier resolves to the composite tier on both
records, identical (event id, home team id, away team id, date)
quadruples always give the same key (the key is a function of those
four fields alone).  The converse — distinct quadruples give distinct
keys — is false, see the counterexample. -/
theorem C2_match_key_two_tier :
    (∀ (r₁ r₂ : MssRec) (n : Int), smPrimary r₁.soccerMatchId = some n →
        smPrimary r₂.soccerMatchId = some n →
        make_match_key r₁ = make_match_key r₂) ∧
    (∀ r₁ r₂ : MssRec, smPrimary r₁.soccerMatchId = none →
        smPrimary r₂.soccerMatchId = none →
        r₁.itemEventId = r₂.itemEventId → r₁.teamHomeId = r₂.teamHomeId →
        r₁.teamAwayId = r₂.teamAwayId → r₁.itemEventDate = r₂.itemEventDate →
        make_match_key r₁ = make_match_key r₂) := by
  constructor
  · intro r₁ r₂ n h₁ h₂
    simp [make_match_key, h₁, h₂]
  · intro r₁ r₂ h₁ h₂ hie hth hta hd
    simp [make_match_key, h₁, h₂, hie, hth, hta, hd]

/-- Witness for `C2_match_key_two_tier` at concrete records: identifier
5 written as an integer and as the string "5" (tier one), and two
composite-tier records differing only in a non-identifying field. -/
theorem C2_match_key_two_tier_witness :
    make_match_key recPrimaryA = make_match_key recPrimaryB ∧
    make_match_key recCompositeIntZero = make_match_key recCompositeOther :=
  ⟨C2_match_key_two_tier.1 recPrimaryA recPrimaryB 5 (by decide) (by decide),
   C2_match_key_two_tier.2 recCompositeIntZero recCompositeOther
     (by decide) (by decide) (by decide) (by decide) (by decide) (by decide)⟩

/-! ## C3 — missing stat-alias handling in
`build_stats_from_matchstatistics` -/

/-- C3 (code bug): on a table that has a player column and an `assist`
column but none of the goal aliases `score`/`isGoal`/`Score`, the
builder raises instead of returning zero goals: the
`groupby(...).agg(...)` names the literal column `"score"` in every
named aggregation, so the alias resolution of `pick_flag` is bypassed
and pandas raises `KeyError: Column(s) ['score'] do not exist`. -/
theorem C3_missing_alias_raises :
    playerColOf msAliasOnlyAssist = some "playerId" ∧
    hasCol msAliasOnlyAssist "score" = false ∧
    hasCol msAliasOnlyAssist "isGoal" = false ∧
    hasCol msAliasOnlyAssist "Score" = false ∧
    build_stats_from_matchstatistics msAliasOnlyAssist = .error () := by
  decide

/-! ## C7 — agreement of the two match-key implementations -/

/-- C7 (code bug): the two key implementations disagree on the very
same raw record.  `build_matches_df` coerces falsy raw values to the
empty string ("ie_h10_a20_d2024-01-01" for event id 0), while
`build_scoring_events_df` renders the Int64-coerced value
("ie0_h10_a20_d2024-01-01"), despite the source comment that the
latter builds "a match_key compatible with build_matches_df()". -/
theorem C7_key_divergence :
    (build_matches_df mss7).map (List.map MatchRow.match_key) =
      .ok ["ie_h10_a20_d2024-01-01"] ∧
    (build_scoring_events_df resp7).map (List.map EventRow.match_key) =
      .ok ["ie0_h10_a20_d2024-01-01"] ∧
    ("ie_h10_a20_d2024-01-01" : String) ≠ "ie0_h10_a20_d2024-01-01" := by
  refine ⟨by rfl, by rfl, by decide⟩

/-! ## C8 — download failure falls back to the cache -/

/-- C8: with downloads allowed, any fetch failure (network error,
timeout, non-2xx, unparseable body) returns the parsed contents of the
existing cache — or None when it is absent — without modifying the
cache; and the cache is only ever modified by a successful download,
which overwrites it with the new snapshot and returns that snapshot.
(When the existing cache file holds malformed JSON, the fallback read
itself raises, which is why the first part assumes a readable cache.) -/
theorem C8_download_fallback :
    (∀ (fetch : FetchResult) (cache : FileState), fetch.isFailure = true →
        cache ≠ .malformed →
        (download_season_json true fetch cache).1 = .ok (cacheContents cache) ∧
        (download_season_json true fetch cache).2 = cache) ∧
    (∀ (allow : Bool) (fetch : FetchResult) (cache : FileState),
        (download_season_json allow fetch cache).2 ≠ cache →
        ∃ d, allow = true ∧ fetch = .success d ∧
          (download_season_json allow fetch cache).2 = .valid d ∧
          (download_season_json allow fetch cache).1 = .ok (some d)) := by
  constructor
  · intro fetch cache hf hc
    cases fetch with
    | success d => simp [FetchResult.isFailure] at hf
    | connectionError | timeout | httpError | invalidJson =>
      cases cache with
      | absent => exact ⟨rfl, rfl⟩
      | malformed => exact absurd rfl hc
      | valid d => exact ⟨rfl, rfl⟩
  · intro allow fetch cache h
    cases allow with
    | false => exact absurd rfl h
    | true =>
      cases fetch with
      | success d => exact ⟨d, rfl, rfl, rfl, rfl⟩
      | connectionError | timeout | httpError | invalidJson => exact absurd rfl h

/-- Witness for `C8_download_fallback`: a timeout with a valid cached
document returns the cached document and leaves the cache alone. -/
theorem C8_download_fallback_witness :
    (download_season_json true .timeout (.valid resp7)).1 = .ok (some resp7) ∧
    (download_season_json true .timeout (.valid resp7)).2 = .valid resp7 :=
  C8_download_fallback.1 .timeout (.valid resp7) (by decide) (by decide)

/-! ## C6 — season skipping in `main` -/

/-- The environment refuting C6: season 25/26 is simply absent, while
season 24/25 has a cache file holding malformed JSON. -/
def envMalformedCache : Env :=
  { fetch2526 := .connectionError, cache2526 := .absent, cache2425 := .malformed }

/-- C6 counterexample: a malformed 24/25 cache file makes `main` raise
(the `json.load` inside `_load_local_json` is not guarded when the
season is cache-only), aborting the whole multi-season run — contra
the claim that no single-season failure ever raises. -/
theorem C6_counterexample : mainModel false envMalformedCache = .error () := by rfl

theorem appendTables_empty_right (t : Tables) : appendTables t emptyTables = t := by
  cases t
  simp [appendTables, emptyTables]

/-- C6 (amended): a season whose loader yields the absence signal — a
missing cache file, with downloading either disallowed or failed — is
skipped: it contributes zero rows and the run is exactly the other
season's run.  (A malformed cache file that is actually read, or a
document on which a table builder raises, still aborts the whole run,
see the counterexample.) -/
theorem C6_skip_absent_season :
    (∀ (dl : Bool) (env : Env), env.cache2425 = .absent →
        mainModel dl env = runSeason dl env.fetch2526 env.cache2526 "25/26") ∧
    (∀ env : Env, env.cache2526 = .absent →
        mainModel false env = runSeason false env.fetch2526 env.cache2425 "24/25") := by
  constructor
  · intro dl env h
    simp only [mainModel, h]
    cases hr : runSeason dl env.fetch2526 env.cache2526 "25/26" with
    | error e => rfl
    | ok t =>
      show Except.ok (appendTables t emptyTables) = Except.ok t
      rw [appendTables_empty_right]
  · intro env h
    simp only [mainModel, h]
    cases hr : runSeason false env.fetch2526 env.cache2425 "24/25" with
    | error e => rfl
    | ok t =>
      show Except.ok (appendTables emptyTables t) = Except.ok t
      cases t
      simp [appendTables, emptyTables]

/-- The environment for the witness: 25/26 cached and valid, 24/25
cache missing. -/
def envSkip : Env :=
  { fetch2526 := .connectionError, cache2526 := .valid resp7, cache2425 := .absent }

/-- Witness for `C6_skip_absent_season` on a concrete environment whose
24/25 cache is absent: the run equals the 25/26-only run, and in
particular does not raise. -/
theorem C6_skip_absent_season_witness :
    mainModel false envSkip =
      runSeason false FetchResult.connectionError (FileState.valid resp7) "25/26" :=
  C6_skip_absent_season.1 false envSkip rfl

/-! ## C4 — final scores are group maxima -/

theorem nodup_map_matchkey {keys : List String} (f : String → MatchRow)
    (hf : ∀ k, (f k).match_key = k) (h : keys.Nodup) :
    ((keys.map f).map (·.match_key)).Nodup := by
  rw [List.map_map]
  have hcomp : ((fun m : MatchRow => m.match_key) ∘ f) = id := funext fun k => hf k
  rw [hcomp, List.map_id]
  exact h

/-- C4: for every group of raw records sharing a key, the derived
match's scores are the maxima of the parseable score values of that
group (null when none parses); the output has one row per distinct key
and every record's key is represented.  (Conditional on the builder
returning — the key `apply` can raise, see C2/C6.) -/
theorem C4_match_scores (tbl : List AssocRow) (out : List MatchRow)
    (h : build_matches_df tbl = .ok out) :
    (∀ r ∈ tbl, mssKey tbl r = .ok (mssKeyD tbl r)) ∧
    (out.map (·.match_key)).Nodup ∧
    (∀ r ∈ tbl, ∃ m ∈ out, mssKeyD tbl r = m.match_key) ∧
    (∀ m ∈ out,
      m.home_score = maxNum ((tbl.filter fun r => mssKeyD tbl r == m.match_key).filterMap
        fun r => (extractMss tbl r).scoreTeamHome.toNumCoerce) ∧
      m.away_score = maxNum ((tbl.filter fun r => mssKeyD tbl r == m.match_key).filterMap
        fun r => (extractMss tbl r).scoreTeamAway.toNumCoerce)) := by
  rw [build_matches_df] at h
  by_cases he : tbl.isEmpty
  · rw [if_pos he] at h
    have htbl : tbl = [] := List.isEmpty_iff.mp he
    cases h
    subst htbl
    refine ⟨by simp, by simp, by simp, by simp⟩
  · rw [if_neg he] at h
    by_cases hall : (tbl.all fun r => (mssKey tbl r).isOk) = true
    · rw [if_neg (by simp [hall])] at h
      simp only [Except.ok.injEq] at h
      subst h
      have hok : ∀ r ∈ tbl, mssKey tbl r = .ok (mssKeyD tbl r) := by
        intro r hr
        exact except_isOk_eq_ok (List.all_eq_true.mp hall r hr)
      set f : AssocRow → MssRec × String := fun r => (extractMss tbl r, mssKeyD tbl r)
        with hf
      set keyed := tbl.map f with hkeyed
      set sorted := sortLe (fun x y => JVal.le x.1.itemEventDate y.1.itemEventDate) keyed
        with hsorted
      set keys := sortLe strLeB ((sorted.map (·.2)).dedup) with hkeysdef
      have hkeysnd : keys.Nodup :=
        nodup_sortLe (List.nodup_dedup _)
      refine ⟨hok, ?_, ?_, ?_⟩
      · exact nodup_map_matchkey _ (fun k => rfl) hkeysnd
      · intro r hr
        have h1 : f r ∈ keyed := List.mem_map_of_mem f hr
        have h2 : mssKeyD tbl r ∈ keyed.map (·.2) :=
          List.mem_map.mpr ⟨f r, h1, rfl⟩
        have h3 : mssKeyD tbl r ∈ sorted.map (·.2) :=
          (((sortLe_perm _ keyed).map (·.2)).mem_iff).mpr h2
        have h4 : mssKeyD tbl r ∈ keys :=
          mem_sortLe.mpr (List.mem_dedup.mpr h3)
        exact ⟨_, List.mem_map_of_mem _ h4, rfl⟩
      · intro m hm
        obtain ⟨k, hk, rfl⟩ := List.mem_map.mp hm
        have hperm : (sorted.filter (fun x => x.2 == k)).Perm
            (keyed.filter (fun x => x.2 == k)) :=
          (sortLe_perm _ keyed).filter _
        have hkf : keyed.filter (fun x => x.2 == k) =
            (tbl.filter fun r => mssKeyD tbl r == k).map f := by
          rw [hkeyed, List.filter_map]
          rfl
        constructor
        · show maxNum ((sorted.filter (fun x => x.2 == k)).filterMap
              fun x => x.1.scoreTeamHome.toNumCoerce) = _
          rw [maxNum_perm (hperm.filterMap _), hkf, List.filterMap_map]
          rfl
        · show maxNum ((sorted.filter (fun x => x.2 == k)).filterMap
              fun x => x.1.scoreTeamAway.toNumCoerce) = _
          rw [maxNum_perm (hperm.filterMap _), hkf, List.filterMap_map]
          rfl
    · rw [if_pos (by simpa using hall)] at h
      cases h

/-- Witness for `C4_match_scores`: the spec's own example — four
snapshots of one match with home scores 1, 2, 2, 3 (the last two out
of order) produce a single derived match with `home_score = 3`. -/
def mssSnapshots : List AssocRow :=
  [[("soccerMatchId", JVal.int 7), ("itemEventDate", JVal.str "d1"),
    ("scoreTeamHome", JVal.int 1), ("scoreTeamAway", JVal.int 0)],
   [("soccerMatchId", JVal.int 7), ("itemEventDate", JVal.str "d1"),
    ("scoreTeamHome", JVal.int 2), ("scoreTeamAway", JVal.int 0)],
   [("soccerMatchId", JVal.int 7), ("itemEventDate", JVal.str "d1"),
    ("scoreTeamHome", JVal.int 3), ("scoreTeamAway", JVal.int 1)],
   [("soccerMatchId", JVal.int 7), ("itemEventDate", JVal.str "d1"),
    ("scoreTeamHome", JVal.int 2), ("scoreTeamAway", JVal.int 1)]]

/-! ## Structure lemmas for the per-player pipeline -/

/-- Mapping a projection that inverts the construction over a list of
distinct keys keeps it distinct. -/
theorem nodup_map_proj {keys : List κ} (f : κ → β) (g : β → κ)
    (hf : ∀ k, g (f k) = k) (h : keys.Nodup) : ((keys.map f).map g).Nodup := by
  rw [List.map_map]
  have hcomp : (g ∘ f) = id := funext hf
  rw [hcomp, List.map_id]
  exact h

/-- A filter over a list whose image under `g` has no duplicates, by a
predicate that depends only on `g` and holds for at most one value,
keeps at most one element. -/
theorem length_filter_le_one_nodupmap {l : List β} {g : β → κ}
    (h : (l.map g).Nodup) (p : κ → Bool)
    (hp : ∀ k₁ k₂, p k₁ = true → p k₂ = true → k₁ = k₂) :
    (l.filter fun b => p (g b)).length ≤ 1 := by
  induction l with
  | nil => simp
  | cons b bs ih =>
    rw [List.map_cons, List.nodup_cons] at h
    obtain ⟨hnotmem, hnd⟩ := h
    have hnil : p (g b) = true → bs.filter (fun x => p (g x)) = [] := by
      intro hpb
      rw [List.filter_eq_nil_iff]
      intro x hx hpx
      exact hnotmem (hp (g x) (g b) hpx hpb ▸ List.mem_map_of_mem g hx)
    by_cases hpb : p (g b) = true
    · simp [List.filter_cons, hpb, hnil hpb]
    · simp only [List.filter_cons, hpb, if_false, Bool.false_eq_true]
      exact ih hnd

/-- The distinct sorted group keys of a `groupby` have no duplicates. -/
theorem groupKeys_nodup (pids : List (Option Int)) : (groupKeys pids).Nodup :=
  nodup_sortLe (List.nodup_dedup _)

/-- Every group key appears as some record's parsed identifier. -/
theorem groupKeys_source {pids : List (Option Int)} {k : Int}
    (h : k ∈ groupKeys pids) : some k ∈ pids := by
  have h1 : k ∈ (pids.filterMap id).dedup := mem_sortLe.mp h
  have h2 : k ∈ pids.filterMap id := List.mem_dedup.mp h1
  obtain ⟨a, ha, hak⟩ := List.mem_filterMap.mp h2
  cases a with
  | none => cases hak
  | some x => cases hak; exact ha

/-- The player column actually used by an aggregate builder (the alias
resolution applied to the table), or null when no alias is present. -/
def tablePid (tbl : List AssocRow) (r : AssocRow) : Option Int :=
  match playerColOf tbl with
  | some pc => pidCell tbl pc r
  | none => none

theorem build_stats_nodup {ms : List AssocRow} {agg : List StatAgg}
    (h : build_stats_from_matchstatistics ms = .ok agg) :
    (agg.map (·.player_id)).Nodup := by
  rw [build_stats_from_matchstatistics] at h
  by_cases he : ms.isEmpty
  · rw [if_pos he] at h; cases h; simp
  · rw [if_neg he] at h
    cases hpc : playerColOf ms with
    | none => rw [hpc] at h; cases h; simp
    | some pc =>
      rw [hpc] at h
      dsimp only [] at h
      by_cases hs : hasCol ms "score"
      · rw [if_neg (by simp [hs])] at h
        cases h
        exact nodup_map_proj _ _ (fun k => rfl) (groupKeys_nodup _)
      · rw [if_pos (by simpa using hs)] at h
        cases h

theorem build_stats_key_source {ms : List AssocRow} {agg : List StatAgg}
    (h : build_stats_from_matchstatistics ms = .ok agg) :
    ∀ a ∈ agg, ∃ r ∈ ms, tablePid ms r = some a.player_id := by
  rw [build_stats_from_matchstatistics] at h
  by_cases he : ms.isEmpty
  · rw [if_pos he] at h; cases h; simp
  · rw [if_neg he] at h
    cases hpc : playerColOf ms with
    | none => rw [hpc] at h; cases h; simp
    | some pc =>
      rw [hpc] at h
      dsimp only [] at h
      by_cases hs : hasCol ms "score"
      · rw [if_neg (by simp [hs])] at h
        cases h
        intro a ha
        obtain ⟨k, hk, rfl⟩ := List.mem_map.mp ha
        obtain ⟨r, hr, hrk⟩ := List.mem_map.mp (groupKeys_source hk)
        exact ⟨r, hr, by simp [tablePid, hpc, hrk]⟩
      · rw [if_pos (by simpa using hs)] at h
        cases h

theorem build_mp_nodup {iph : List AssocRow} {mp : List MPAgg}
    (h : build_matches_played_from_itemplayerhistory iph = .ok mp) :
    (mp.map (·.player_id)).Nodup := by
  rw [build_matches_played_from_itemplayerhistory] at h
  by_cases he : iph.isEmpty
  · rw [if_pos he] at h; cases h; simp
  · rw [if_neg he] at h
    cases hpc : playerColOf iph with
    | none => rw [hpc] at h; cases h; simp
    | some pc =>
      rw [hpc] at h
      dsimp only [] at h
      by_cases hs : hasCol iph "itemEventId"
      · rw [if_neg (by simp [hs])] at h
        cases h
        exact nodup_map_proj _ _ (fun k => rfl) (groupKeys_nodup _)
      · rw [if_pos (by simpa using hs)] at h
        cases h

theorem build_mp_key_source {iph : List AssocRow} {mp : List MPAgg}
    (h : build_matches_played_from_itemplayerhistory iph = .ok mp) :
    ∀ m ∈ mp, ∃ r ∈ iph, tablePid iph r = some m.player_id := by
  rw [build_matches_played_from_itemplayerhistory] at h
  by_cases he : iph.isEmpty
  · rw [if_pos he] at h; cases h; simp
  · rw [if_neg he] at h
    cases hpc : playerColOf iph with
    | none => rw [hpc] at h; cases h; simp
    | some pc =>
      rw [hpc] at h
      dsimp only [] at h
      by_cases hs : hasCol iph "itemEventId"
      · rw [if_neg (by simp [hs])] at h
        cases h
        intro m hm
        obtain ⟨k, hk, rfl⟩ := List.mem_map.mp hm
        obtain ⟨r, hr, hrk⟩ := List.mem_map.mp (groupKeys_source hk)
        exact ⟨r, hr, by simp [tablePid, hpc, hrk]⟩
      · rw [if_pos (by simpa using hs)] at h
        cases h

/-- The combined per-roster-row result of both merges. -/
def playerStatsOf (p : PlayerRow) (a? : Option StatAgg) (m? : Option MPAgg) :
    PlayerStatsRow :=
  withMP (statRowOf p a?) m?

theorem withMP_none_of_zero {r : PlayerStatsRow} (h : r.matches_played = 0) :
    withMP r none = r := by
  cases r
  simp only [withMP, Option.map_none, Option.getD_none]
  simp_all

theorem attachStats_eq_map {players : List PlayerRow} {agg : List StatAgg}
    (hnd : (agg.map (·.player_id)).Nodup) :
    attachStats players agg =
      players.map (fun p =>
        statRowOf p (agg.find? fun a => p.player_id == some a.player_id)) := by
  rw [attachStats]
  by_cases he : agg.isEmpty
  · rw [if_pos he]
    have ha : agg = [] := List.isEmpty_iff.mp he
    subst ha
    rfl
  · rw [if_neg he]
    apply leftJoin_eq_map
    intro p hp
    exact length_filter_le_one_nodupmap hnd (fun k => p.player_id == some k)
      (fun k₁ k₂ h₁ h₂ => by
        have e₁ : p.player_id = some k₁ := by simpa using h₁
        have e₂ : p.player_id = some k₂ := by simpa using h₂
        exact Option.some.inj (e₁.symm.trans e₂))

theorem attachMP_attachStats_eq_map {roster : List PlayerRow} {agg : List StatAgg}
    {mp : List MPAgg}
    (hagg : (agg.map (·.player_id)).Nodup) (hmp : (mp.map (·.player_id)).Nodup) :
    attachMP (attachStats roster agg) mp =
      roster.map (fun p => playerStatsOf p
        (agg.find? fun a => p.player_id == some a.player_id)
        (mp.find? fun m => p.player_id == some m.player_id)) := by
  rw [attachStats_eq_map hagg, attachMP]
  by_cases he : mp.isEmpty
  · rw [if_pos he]
    have hm : mp = [] := List.isEmpty_iff.mp he
    subst hm
    apply List.map_congr_left
    intro p _
    exact (withMP_none_of_zero rfl).symm
  · rw [if_neg he]
    rw [leftJoin_eq_map]
    · rw [List.map_map]
      rfl
    · intro r hr
      exact length_filter_le_one_nodupmap hmp (fun k => r.player_id == some k)
        (fun k₁ k₂ h₁ h₂ => by
          have e₁ : r.player_id = some k₁ := by simpa using h₁
          have e₂ : r.player_id = some k₂ := by simpa using h₂
          exact Option.some.inj (e₁.symm.trans e₂))

theorem build_player_stats_presort_eq {resp : Resp} {roster : List PlayerRow}
    {agg : List StatAgg} {mp : List MPAgg}
    (hr : build_players_df resp.players = .ok roster)
    (ha : build_stats_from_matchstatistics resp.matchStatistics = .ok agg)
    (hm : build_matches_played_from_itemplayerhistory resp.itemPlayerHistory = .ok mp) :
    build_player_stats_presort resp = .ok (attachMP (attachStats roster agg) mp) := by
  rw [build_player_stats_presort, hr, ha, hm]
  rfl

/-! ## C1 — roster completeness of the player-stats table -/

/-- C1: the player-stats table has exactly one row per roster player
(same length, and the same multiset of player identifiers), and a
roster player matched by no `matchStatistics` record and no
`itemPlayerHistory` record comes out with goals, assists, own goals
and matches played all zero.  (Conditional on the builders returning;
`tablePid` is the alias-resolved parsed player identifier of a raw
record.) -/
theorem C1_player_stats_complete (resp : Resp) (roster : List PlayerRow)
    (out : List PlayerStatsRow)
    (hr : build_players_df resp.players = .ok roster)
    (h : build_player_stats resp = .ok out) :
    out.length = roster.length ∧
    (out.map (·.player_id)).Perm (roster.map (·.player_id)) ∧
    (∀ row ∈ out,
      (∀ r ∈ resp.matchStatistics,
        ¬ (∃ n : Int, row.player_id = some n ∧ tablePid resp.matchStatistics r = some n)) →
      (∀ r ∈ resp.itemPlayerHistory,
        ¬ (∃ n : Int, row.player_id = some n ∧ tablePid resp.itemPlayerHistory r = some n)) →
      row.goals = 0 ∧ row.assists = 0 ∧ row.own_goals = 0 ∧ row.matches_played = 0) := by
  rw [build_player_stats] at h
  cases hpre : build_player_stats_presort resp with
  | error e => rw [hpre] at h; cases h
  | ok pre =>
    rw [hpre] at h
    cases h
    cases hra : build_stats_from_matchstatistics resp.matchStatistics with
    | error e =>
      exfalso
      rw [build_player_stats_presort, hr, hra] at hpre
      cases hpre
    | ok agg =>
      cases hrm : build_matches_played_from_itemplayerhistory resp.itemPlayerHistory with
      | error e =>
        exfalso
        rw [build_player_stats_presort, hr, hra, hrm] at hpre
        cases hpre
      | ok mp =>
        have hps := build_player_stats_presort_eq hr hra hrm
        rw [hpre] at hps
        have hpre2 : pre = attachMP (attachStats roster agg) mp :=
          (Except.ok.injEq _ _).mp hps
        have hnda := build_stats_nodup hra
        have hndm := build_mp_nodup hrm
        rw [attachMP_attachStats_eq_map hnda hndm] at hpre2
        subst hpre2
        refine ⟨?_, ?_, ?_⟩
        · rw [sortLe_length, List.length_map]
        · refine ((sortLe_perm statLe _).map _).trans ?_
          rw [List.map_map]
          exact List.Perm.refl _
        · intro row hrow h1 h2
          have hmem := mem_sortLe.mp hrow
          obtain ⟨p, hp, rfl⟩ := List.mem_map.mp hmem
          have hA : (agg.find? fun a => p.player_id == some a.player_id) = none := by
            cases hA : agg.find? fun a => p.player_id == some a.player_id with
            | none => rfl
            | some a =>
              exfalso
              have hamem : a ∈ agg := List.mem_of_find?_eq_some hA
              have hatrue := List.find?_some hA
              obtain ⟨r, hrms, hpid⟩ := build_stats_key_source hra a hamem
              exact h1 r hrms ⟨a.player_id, by simpa using hatrue, hpid⟩
          have hM : (mp.find? fun m => p.player_id == some m.player_id) = none := by
            cases hM : mp.find? fun m => p.player_id == some m.player_id with
            | none => rfl
            | some m =>
              exfalso
              have hmmem : m ∈ mp := List.mem_of_find?_eq_some hM
              have hmtrue := List.find?_some hM
              obtain ⟨r, hriph, hpid⟩ := build_mp_key_source hrm m hmmem
              exact h2 r hriph ⟨m.player_id, by simpa using hmtrue, hpid⟩
          rw [hA, hM]
          exact ⟨rfl, rfl, rfl, rfl⟩

/-! ## C9 — ordering of the player-stats table -/

theorem statLe_total (r₁ r₂ : PlayerStatsRow) :
    statLe r₁ r₂ = true ∨ statLe r₂ r₁ = true := by
  simp only [statLe, Bool.or_eq_true, Bool.and_eq_true, decide_eq_true_eq, beq_iff_eq]
  omega

theorem statLe_trans (r₁ r₂ r₃ : PlayerStatsRow) :
    statLe r₁ r₂ = true → statLe r₂ r₃ = true → statLe r₁ r₃ = true := by
  simp only [statLe, Bool.or_eq_true, Bool.and_eq_true, decide_eq_true_eq, beq_iff_eq]
  omega

/-- C9: the final table is sorted descending by goals and, within equal
goals, descending by assists; rows tying on both keep their relative
pre-sort order (the multi-column `sort_values` is a stable lexsort),
and the pre-sort order is exactly the roster order — the joined table
lists the roster's players in roster order, one row each. -/
theorem C9_sorted_stable (resp : Resp) (roster : List PlayerRow)
    (pre out : List PlayerStatsRow)
    (hr : build_players_df resp.players = .ok roster)
    (hpre : build_player_stats_presort resp = .ok pre)
    (h : build_player_stats resp = .ok out) :
    out.Pairwise (fun r₁ r₂ =>
      r₁.goals > r₂.goals ∨ (r₁.goals = r₂.goals ∧ r₂.assists ≤ r₁.assists)) ∧
    (∀ g a : Int, out.filter (fun r => r.goals == g && r.assists == a) =
      pre.filter (fun r => r.goals == g && r.assists == a)) ∧
    pre.map (fun r => (r.player_id, r.name)) =
      roster.map (fun p => (p.player_id, p.name)) := by
  rw [build_player_stats, hpre] at h
  cases h
  refine ⟨?_, ?_, ?_⟩
  · refine (pairwise_sortLe statLe statLe_total statLe_trans pre).imp ?_
    intro r₁ r₂ h12
    simpa only [statLe, Bool.or_eq_true, Bool.and_eq_true, decide_eq_true_eq,
      beq_iff_eq] using h12
  · intro g a
    apply filter_sortLe
    intro x y hx hy
    simp only [Bool.and_eq_true, beq_iff_eq] at hx hy
    simp only [statLe, Bool.or_eq_true, Bool.and_eq_true, decide_eq_true_eq, beq_iff_eq]
    omega
  · cases hra : build_stats_from_matchstatistics resp.matchStatistics with
    | error e =>
      exfalso
      rw [build_player_stats_presort, hr, hra] at hpre
      cases hpre
    | ok agg =>
      cases hrm : build_matches_played_from_itemplayerhistory resp.itemPlayerHistory with
      | error e =>
        exfalso
        rw [build_player_stats_presort, hr, hra, hrm] at hpre
        cases hpre
      | ok mp =>
        have hps := build_player_stats_presort_eq hr hra hrm
        rw [hpre] at hps
        have hpre2 : pre = attachMP (attachStats roster agg) mp :=
          (Except.ok.injEq _ _).mp hps
        rw [hpre2,
          attachMP_attachStats_eq_map (build_stats_nodup hra) (build_mp_nodup hrm),
          List.map_map]
        rfl

/-! ## C5 / C10 — scoring-event retention and multiplicity -/

theorem filter_flatMap (l : List α) (g : α → List β) (p : β → Bool) :
    (l.flatMap g).filter p = l.flatMap fun a => (g a).filter p := by
  induction l with
  | nil => rfl
  | cons a as ih => simp [List.flatMap_cons, List.filter_append, ih]

/-- The events table is the per-record concatenation of each raw
record's contribution. -/
theorem build_scoring_events_eq (resp : Resp) (roster : List PlayerRow)
    (out : List EventRow)
    (hr : build_players_df resp.players = .ok roster)
    (h : build_scoring_events_df resp = .ok out) :
    out = (resp.matchScoreStatistics.map (extractEv0 resp.matchScoreStatistics)).flatMap
      (rowEvents roster) := by
  rw [build_scoring_events_df] at h
  by_cases he : resp.matchScoreStatistics.isEmpty
  · rw [if_pos he] at h
    cases h
    rw [List.isEmpty_iff.mp he]
    rfl
  · rw [if_neg he] at h
    by_cases hc : (requiredEvCols.all (hasCol resp.matchScoreStatistics)) = true
    · rw [if_neg (by simp [hc])] at h
      rw [hr] at h
      cases h
      rw [filter_flatMap]
      rfl
    · rw [if_pos (by simpa using hc)] at h
      cases h

/-- A nullable identifier resolves against the roster: some roster row
carries that same non-null identifier. -/
def resolvesId (roster : List PlayerRow) (key : Option Int) : Prop :=
  ∃ p ∈ roster, ∃ n : Int, p.player_id = some n ∧ key = some n

theorem rosterMatches_ne_nil (roster : List PlayerRow) (k : Option Int) :
    rosterMatches roster k ≠ [] := by
  rw [rosterMatches]
  cases hf : roster.filter (fun p => p.player_id == k) with
  | nil => simp
  | cons p ps => simp

theorem mem_of_mem_rosterMatches {roster : List PlayerRow} {k : Option Int}
    {p : PlayerRow} (h : some p ∈ rosterMatches roster k) :
    p ∈ roster ∧ p.player_id = k := by
  rw [rosterMatches] at h
  cases hf : roster.filter (fun q => q.player_id == k) with
  | nil => rw [hf] at h; simp at h
  | cons q qs =>
    rw [hf] at h
    obtain ⟨q', hq', hq'eq⟩ := List.mem_map.mp h
    have hq'p : q' = p := Option.some.inj hq'eq
    subst hq'p
    have hmem : q' ∈ roster.filter (fun q => q.player_id == k) := hf ▸ hq'
    have hmem2 := List.mem_filter.mp hmem
    exact ⟨hmem2.1, by simpa using hmem2.2⟩

theorem some_mem_rosterMatches {roster : List PlayerRow} {k : Option Int}
    {p : PlayerRow} (hp : p ∈ roster) (hk : p.player_id = k) :
    some p ∈ rosterMatches roster k := by
  have hpf : p ∈ roster.filter (fun q => q.player_id == k) :=
    List.mem_filter.mpr ⟨hp, by simp [hk]⟩
  rw [rosterMatches]
  cases hf : roster.filter (fun q => q.player_id == k) with
  | nil => rw [hf] at hpf; cases hpf
  | cons q qs => exact List.mem_map_of_mem some (hf ▸ hpf)

/-- The retention rule, per raw record: it contributes at least one
output row exactly when its scorer identity or its own-goal identity
resolves against the roster. -/
theorem rowEvents_ne_nil_iff (roster : List PlayerRow) (e : Ev0) :
    rowEvents roster e ≠ [] ↔
      resolvesId roster e.scoreById ∨ resolvesId roster e.ownGoalById := by
  constructor
  · intro hne
    obtain ⟨x, hx⟩ := List.exists_mem_of_ne_nil _ hne
    rw [rowEvents] at hx
    obtain ⟨hxmem, hmask⟩ := List.mem_filter.mp hx
    obtain ⟨s, hs, hx2⟩ := List.mem_flatMap.mp hxmem
    obtain ⟨a, ha, hx3⟩ := List.mem_flatMap.mp hx2
    obtain ⟨o, ho, hxeq⟩ := List.mem_map.mp hx3
    subst hxeq
    rcases Bool.or_eq_true_iff.mp hmask with hscore | hown
    · left
      simp only [mkEventRow, eventMask] at hscore
      obtain ⟨n, hn⟩ := Option.isSome_iff_exists.mp hscore
      cases s with
      | none => cases hn
      | some p =>
        have hpn : p.player_id = some n := hn
        obtain ⟨hpmem, hpk⟩ := mem_of_mem_rosterMatches hs
        exact ⟨p, hpmem, n, hpn, hpk ▸ hpn⟩
    · right
      simp only [mkEventRow, eventMask] at hown
      obtain ⟨n, hn⟩ := Option.isSome_iff_exists.mp hown
      cases o with
      | none => cases hn
      | some p =>
        have hpn : p.player_id = some n := hn
        obtain ⟨hpmem, hpk⟩ := mem_of_mem_rosterMatches ho
        exact ⟨p, hpmem, n, hpn, hpk ▸ hpn⟩
  · intro hres
    obtain ⟨a, ha⟩ := List.exists_mem_of_ne_nil _
      (rosterMatches_ne_nil roster e.assistById)
    rcases hres with ⟨p, hp, n, hpn, hkey⟩ | ⟨p, hp, n, hpn, hkey⟩
    · obtain ⟨o, ho⟩ := List.exists_mem_of_ne_nil _
        (rosterMatches_ne_nil roster e.ownGoalById)
      apply List.ne_nil_of_mem (a := mkEventRow e (some p) a o)
      rw [rowEvents]
      refine List.mem_filter.mpr ⟨?_, ?_⟩
      · exact List.mem_flatMap.mpr ⟨some p,
          some_mem_rosterMatches hp (hpn.trans hkey.symm), List.mem_flatMap.mpr ⟨a, ha,
            List.mem_map_of_mem _ ho⟩⟩
      · simp [eventMask, mkEventRow, hpn]
    · obtain ⟨s, hs⟩ := List.exists_mem_of_ne_nil _
        (rosterMatches_ne_nil roster e.scoreById)
      apply List.ne_nil_of_mem (a := mkEventRow e s a (some p))
      rw [rowEvents]
      refine List.mem_filter.mpr ⟨?_, ?_⟩
      · exact List.mem_flatMap.mpr ⟨s, hs, List.mem_flatMap.mpr ⟨a, ha,
          List.mem_map_of_mem _ (some_mem_rosterMatches hp (hpn.trans hkey.symm))⟩⟩
      · simp [eventMask, mkEventRow, hpn]

/-- C5: a raw score record contributes rows to the scoring-events
table if and only if its scorer identity or its own-goal identity
resolves against the roster; and the table is exactly the concatenation
of the per-record contributions (so a record with neither identity is
absent from the output). -/
theorem C5_event_retention (resp : Resp) (roster : List PlayerRow)
    (out : List EventRow)
    (hr : build_players_df resp.players = .ok roster)
    (h : build_scoring_events_df resp = .ok out) :
    out = (resp.matchScoreStatistics.map (extractEv0 resp.matchScoreStatistics)).flatMap
      (rowEvents roster) ∧
    (∀ e ∈ resp.matchScoreStatistics.map (extractEv0 resp.matchScoreStatistics),
      (rowEvents roster e ≠ [] ↔
        resolvesId roster e.scoreById ∨ resolvesId roster e.ownGoalById)) :=
  ⟨build_scoring_events_eq resp roster out hr h,
   fun e _ => rowEvents_ne_nil_iff roster e⟩

theorem length_flatMap_le_one {l : List α} {g : α → List β}
    (hl : l.length ≤ 1) (hg : ∀ a ∈ l, (g a).length ≤ 1) :
    (l.flatMap g).length ≤ 1 := by
  cases l with
  | nil => simp
  | cons a as =>
    have has : as = [] := by
      cases as with
      | nil => rfl
      | cons b bs => simp at hl
    subst has
    simpa using hg a (by simp)

theorem length_flatMap_le {l : List α} {g : α → List β}
    (hg : ∀ a ∈ l, (g a).length ≤ 1) :
    (l.flatMap g).length ≤ l.length := by
  induction l with
  | nil => simp
  | cons a as ih =>
    rw [List.flatMap_cons, List.length_append, List.length_cons]
    have h1 := hg a (by simp)
    have h2 := ih (fun x hx => hg x (List.mem_cons_of_mem a hx))
    omega

theorem rosterMatches_length_le_one {roster : List PlayerRow}
    (hnd : (roster.map (·.player_id)).Nodup) (k : Option Int) :
    (rosterMatches roster k).length ≤ 1 := by
  have hf := length_filter_le_one_nodupmap hnd (fun x => x == k)
    (fun k₁ k₂ h₁ h₂ => by
      have e₁ : k₁ = k := by simpa using h₁
      have e₂ : k₂ = k := by simpa using h₂
      rw [e₁, e₂])
  rw [rosterMatches]
  cases hc : roster.filter (fun p => p.player_id == k) with
  | nil => simp
  | cons p ps =>
    rw [hc] at hf
    simpa using hf

theorem rowEvents_length_le_one {roster : List PlayerRow}
    (hnd : (roster.map (·.player_id)).Nodup) (e : Ev0) :
    (rowEvents roster e).length ≤ 1 := by
  rw [rowEvents]
  refine le_trans (List.length_filter_le _ _) ?_
  refine length_flatMap_le_one (rosterMatches_length_le_one hnd _) ?_
  intro s _
  refine length_flatMap_le_one (rosterMatches_length_le_one hnd _) ?_
  intro a _
  rw [List.length_map]
  exact rosterMatches_length_le_one hnd _

/-- The duplicate-roster document: two roster entries share
`baseObjectId` 1 and the single raw record's scorer is 1. -/
def respDup : Resp :=
  { players :=
      [[("baseObjectId", JVal.int 1), ("name", JVal.str "A"),
        ("excludeFromStatistics", JVal.bool false)],
       [("baseObjectId", JVal.int 1), ("name", JVal.str "B"),
        ("excludeFromStatistics", JVal.bool false)]],
    matchStatistics := [], itemPlayerHistory := [], matchScoreStatistics := mss7 }

def rosterDup : List PlayerRow :=
  ((build_players_df respDup.players).toOption).getD []

def eventsDup : List EventRow :=
  ((build_scoring_events_df respDup).toOption).getD []

/-- C10: with pairwise-distinct roster identifiers every raw record
contributes at most one output row (so the output is no longer than
the input); with duplicated identifiers the roster merges multiply a
record into one row per matching roster entry — concretely, two roster
entries with id 1 turn one raw record into two output rows. -/
theorem C10_event_multiplicity :
    (∀ (roster : List PlayerRow) (e : Ev0),
        (roster.map (·.player_id)).Nodup → (rowEvents roster e).length ≤ 1) ∧
    (∀ (resp : Resp) (roster : List PlayerRow) (out : List EventRow),
        build_players_df resp.players = .ok roster →
        (roster.map (·.player_id)).Nodup →
        build_scoring_events_df resp = .ok out →
        out.length ≤ resp.matchScoreStatistics.length) ∧
    (build_players_df respDup.players = .ok rosterDup ∧
     build_scoring_events_df respDup = .ok eventsDup ∧
     rosterDup.map (·.player_id) = [some 1, some 1] ∧
     respDup.matchScoreStatistics.length = 1 ∧
     eventsDup.length = 2) := by
  refine ⟨fun roster e hnd => rowEvents_length_le_one hnd e, ?_, ?_⟩
  · intro resp roster out hr hnd h
    rw [build_scoring_events_eq resp roster out hr h]
    refine le_trans (length_flatMap_le ?_) (by rw [List.length_map])
    intro e _
    exact rowEvents_length_le_one hnd e
  · exact ⟨rfl, rfl, rfl, rfl, rfl⟩

/-- The roster and events of `resp7`, read back from the builders. -/
def roster7 : List PlayerRow := ((build_players_df resp7.players).toOption).getD []

def events7 : List EventRow := ((build_scoring_events_df resp7).toOption).getD []

/-- Witness for `C10_event_multiplicity` on the singleton-roster
document: at most one output row per raw record. -/
theorem C10_event_multiplicity_witness :
    events7.length ≤ resp7.matchScoreStatistics.length :=
  C10_event_multiplicity.2.1 resp7 roster7 events7 rfl (by decide) rfl

/-- Witness for `C5_event_retention`: the concrete document's output is
its records' concatenated contributions, and the single record of
`resp7` (scorer id 1, on the roster) is retained. -/
theorem C5_event_retention_witness :
    events7 = (resp7.matchScoreStatistics.map
      (extractEv0 resp7.matchScoreStatistics)).flatMap (rowEvents roster7) ∧
    events7.length = 1 :=
  ⟨(C5_event_retention resp7 roster7 events7 rfl rfl).1, rfl⟩

/-! ## Witness inputs and witnesses for C1, C4, C9 -/

/-- A two-player roster where only player 1 has any statistics or
participation records. -/
def respStats : Resp :=
  { players :=
      [[("baseObjectId", JVal.int 1), ("name", JVal.str "A"),
        ("excludeFromStatistics", JVal.bool false)],
       [("baseObjectId", JVal.int 2), ("name", JVal.str "B"),
        ("excludeFromStatistics", JVal.bool false)]],
    matchStatistics := [[("playerId", JVal.int 1), ("score", JVal.int 1)],
      [("playerId", JVal.int 1), ("score", JVal.int 1)]],
    itemPlayerHistory := [[("playerId", JVal.int 1), ("itemEventId", JVal.str "e1"),
      ("soccerMatchId", JVal.int 5)]],
    matchScoreStatistics := [] }

def rosterStats : List PlayerRow :=
  ((build_players_df respStats.players).toOption).getD []

def outStats : List PlayerStatsRow :=
  ((build_player_stats respStats).toOption).getD []

/-- Witness for `C1_player_stats_complete`: the two-player document
yields exactly two rows, and the record-less player 2 shows all-zero
stats. -/
theorem C1_player_stats_complete_witness :
    outStats.length = rosterStats.length ∧
    rosterStats.length = 2 ∧
    outStats.map (fun r => (r.player_id, r.goals, r.matches_played)) =
      [(some 1, 2, 1), (some 2, 0, 0)] :=
  ⟨(C1_player_stats_complete respStats rosterStats outStats rfl rfl).1, rfl, rfl⟩

def matchesSnapshots : List MatchRow :=
  ((build_matches_df mssSnapshots).toOption).getD []

/-- Witness for `C4_match_scores`: the spec's example — snapshots with
home scores 1, 2, 3, 2 (the maximum arriving out of order) collapse to
one match with home score 3, and the derived keys are distinct. -/
theorem C4_match_scores_witness :
    build_matches_df mssSnapshots = .ok matchesSnapshots ∧
    matchesSnapshots.map (fun m => (m.match_key, m.home_score, m.away_score)) =
      [("s7", some 3, some 1)] ∧
    (matchesSnapshots.map (·.match_key)).Nodup :=
  ⟨rfl, rfl, (C4_match_scores mssSnapshots matchesSnapshots rfl).2.1⟩

/-- A three-player roster producing a sort with a decisive goals
column, an assists tiebreak and a zero row. -/
def respNine : Resp :=
  { players :=
      [[("baseObjectId", JVal.int 1), ("name", JVal.str "A"),
        ("excludeFromStatistics", JVal.bool false)],
       [("baseObjectId", JVal.int 2), ("name", JVal.str "B"),
        ("excludeFromStatistics", JVal.bool false)],
       [("baseObjectId", JVal.int 3), ("name", JVal.str "C"),
        ("excludeFromStatistics", JVal.bool false)]],
    matchStatistics := [[("playerId", JVal.int 3), ("score", JVal.int 2),
        ("assist", JVal.int 0)],
      [("playerId", JVal.int 2), ("score", JVal.int 0), ("assist", JVal.int 1)]],
    itemPlayerHistory := [], matchScoreStatistics := [] }

def rosterNine : List PlayerRow :=
  ((build_players_df respNine.players).toOption).getD []

def preNine : List PlayerStatsRow :=
  ((build_player_stats_presort respNine).toOption).getD []

def outNine : List PlayerStatsRow :=
  ((build_player_stats respNine).toOption).getD []

/-- Witness for `C9_sorted_stable`: C (2 goals) sorts before B (1
assist) before A (zero row), and the pre-sort table is in roster
order. -/
theorem C9_sorted_stable_witness :
    outNine.map (·.name) = ["C", "B", "A"] ∧
    preNine.map (fun r => (r.player_id, r.name)) =
      rosterNine.map (fun p => (p.player_id, p.name)) :=
  ⟨rfl, (C9_sorted_stable respNine rosterNine preNine outNine rfl rfl rfl).2.2⟩
